import Mathlib

/-!
Verification development for the AR project scaffolding script (`python.py`).

The script is a linear setup runner over the filesystem: it ensures five
directories exist under the project root (the working directory resolved once
at start), writes three files with fixed contents (`README.md`, `.gitignore`,
`render.yaml` — the latter a JSON document produced by `json.dump` with
`indent=2`), checks whether a `.git` entry exists, and prints guidance.

We embed the filesystem as an association list from absolute paths (lists of
path components) to entries (directory, or file with string content), with the
semantics of `pathlib.Path.mkdir(exist_ok=True)` and `open(path, "w")`:
creating an existing directory is a no-op, creating over a non-directory is a
`FileExistsError`, creating under a missing parent is a `FileNotFoundError`,
opening a directory for writing is an `IsADirectoryError`, and writing a file
truncates/overwrites.  A run threads a state holding the filesystem, the list
of strings passed to `print`, and the first uncaught error if any; once an
error occurs the remaining steps do not execute, matching exception
propagation in the script.
-/

namespace ARLab

/-- An absolute filesystem path, as its list of components from the root. -/
abbrev FPath := List String

/-- A filesystem entry: a directory, or a regular file with its content. -/
inductive Entry where
  | dir : Entry
  | file : String → Entry
deriving DecidableEq, Repr

/-- The filesystem: a finite map from paths to entries, as an association
list (at most one binding per path is maintained by `FS.set`). -/
abbrev FS := List (FPath × Entry)

/-- Look up the entry at a path. -/
def FS.get : FS → FPath → Option Entry
  | [], _ => none
  | (q, e) :: t, p => if q = p then some e else FS.get t p

/-- Bind a path to an entry, replacing any existing binding in place. -/
def FS.set : FS → FPath → Entry → FS
  | [], p, e => [(p, e)]
  | (q, d) :: t, p, e => if q = p then (p, e) :: t else (q, d) :: FS.set t p e

/-- `pathlib.Path.mkdir(exist_ok=True)` (no `parents=True`): succeeds as a
no-op on an existing directory, raises `FileExistsError` on an existing
non-directory, creates the directory when absent provided the parent exists
as a directory, and raises `FileNotFoundError` otherwise. -/
def mkdir_exist_ok (fs : FS) (p : FPath) : Except String FS :=
  match FS.get fs p with
  | some Entry.dir => Except.ok fs
  | some (Entry.file _) => Except.error "FileExistsError"
  | none =>
    if FS.get fs p.dropLast = some Entry.dir then
      Except.ok (FS.set fs p Entry.dir)
    else
      Except.error "FileNotFoundError"

/-- `open(p, "w")` followed by `f.write(c)`: overwrites an existing file,
raises `IsADirectoryError` on a directory, and creates the file when absent
provided the parent exists as a directory. -/
def write_text (fs : FS) (p : FPath) (c : String) : Except String FS :=
  match FS.get fs p with
  | some Entry.dir => Except.error "IsADirectoryError"
  | some (Entry.file _) => Except.ok (FS.set fs p (Entry.file c))
  | none =>
    if FS.get fs p.dropLast = some Entry.dir then
      Except.ok (FS.set fs p (Entry.file c))
    else
      Except.error "FileNotFoundError"

/-- The configuration object of the script: `__init__` reads the current
working directory once into `project_root`; it is never changed afterwards. -/
structure ARProjectSetup where
  project_root : FPath
deriving DecidableEq, Repr

/-- `self.markers_dir = self.project_root / "markers"`. -/
def ARProjectSetup.markers_dir (s : ARProjectSetup) : FPath :=
  s.project_root ++ ["markers"]

/-- `self.models_dir = self.project_root / "models"`. -/
def ARProjectSetup.models_dir (s : ARProjectSetup) : FPath :=
  s.project_root ++ ["models"]

/-- The five directories listed in `create_directory_structure`. -/
def ARProjectSetup.directories (s : ARProjectSetup) : List FPath :=
  [s.markers_dir, s.models_dir,
   s.project_root ++ ["assets"], s.project_root ++ ["css"], s.project_root ++ ["js"]]

/-- `pathlib.PurePath.name`: the final path component. -/
def pathName (p : FPath) : String := p.getLastD ""

/-- The state threaded through one process run: the filesystem, the sequence
of strings passed to `print`, and the first uncaught exception if any. -/
structure RunState where
  fs : FS
  output : List String
  err : Option String
deriving DecidableEq, Repr

/-- A `print(msg)` call: appends to the output unless the run has aborted. -/
def emit (st : RunState) (msg : String) : RunState :=
  match st.err with
  | some _ => st
  | none => { st with output := st.output ++ [msg] }

/-- One iteration of the loop in `create_directory_structure`:
`directory.mkdir(exist_ok=True)` then `print(f"   ✓ {directory.name}/")`. -/
def mkdirStep (st : RunState) (p : FPath) : RunState :=
  match st.err with
  | some _ => st
  | none =>
    match mkdir_exist_ok st.fs p with
    | Except.ok fs' =>
        { fs := fs', output := st.output ++ ["   ✓ " ++ pathName p ++ "/"], err := none }
    | Except.error e => { st with err := some e }

/-- A `with open(p, "w") as f: f.write(c)` block. -/
def writeStep (st : RunState) (p : FPath) (c : String) : RunState :=
  match st.err with
  | some _ => st
  | none =>
    match write_text st.fs p c with
    | Except.ok fs' => { st with fs := fs' }
    | Except.error e => { st with err := some e }

/-- `ARProjectSetup.create_directory_structure`. -/
def create_directory_structure (s : ARProjectSetup) (st : RunState) : RunState :=
  let st := emit st "📁 Creating directory structure..."
  let st := (s.directories).foldl mkdirStep st
  emit st "✅ Directory structure created!\n"

/-- The body of the `README.md` written by `create_readme`, verbatim from the
triple-quoted string in the script. -/
def readme_content : String := String.intercalate "\n"
  ["# Interactive AR Narrative Experience",
   "",
   "An augmented reality experience built with AR.js featuring a multi-chapter narrative with interactive elements.",
   "",
   "## Features",
   "",
   "- **Sequential Storytelling**: 3 chapters that unlock progressively",
   "- **Interactive Elements**: Clickable objects that respond to user interaction",
   "- **Dynamic UI**: Real-time progress tracking and narrative text",
   "- **Artistic Design**: Custom 3D elements with animations and effects",
   "",
   "## Setup Instructions",
   "",
   "### 1. Create NFT Markers",
   "",
   "1. Visit [NFT Marker Creator](https://carnaux.github.io/NFT-Marker-Creator/#/)",
   "2. Upload 3 distinctive images (high contrast works best):",
   "   - marker1: Starting point image",
   "   - marker2: Mid-journey image",
   "   - marker3: Final destination image",
   "3. Download the generated files (.fset, .fset3, .iset)",
   "4. Place them in the `markers/` folder with names:",
   "   - `markers/marker1.*`",
   "   - `markers/marker2.*`",
   "   - `markers/marker3.*`",
   "",
   "### 2. Deploy to Render.com",
   "",
   "1. Push your code to GitHub",
   "2. Go to [Render.com](https://render.com/)",
   "3. Create a new \"Static Site\"",
   "4. Connect your GitHub repository",
   "5. Configure:",
   "   - Build Command: (leave empty)",
   "   - Publish Directory: `.`",
   "6. Deploy!",
   "",
   "### 3. Test Your AR Experience",
   "",
   "1. Open the deployed URL on your mobile device",
   "2. Allow camera permissions",
   "3. Point your camera at marker1 to begin",
   "4. Follow the narrative prompts",
   "5. Interact with objects by tapping",
   "",
   "## Grading Criteria Achievement",
   "",
   "- **Grade 5**: Shows single object per marker",
   "- **Grade 7**: Sequential unlocking (marker2 after marker1)",
   "- **Grade 9**: Multiple scenarios with portal interaction",
   "- **Grade 10**: Artistic narrative with 3-chapter story arc",
   "",
   "## Narrative Structure",
   "",
   "**Chapter I: The Discovery**",
   "- Introduces the mysterious artifact",
   "- Rotating crystal animation",
   "- Sets the tone for the journey",
   "",
   "**Chapter II: The Portal**",
   "- Interactive portal that must be activated",
   "- Click interaction required to progress",
   "- Gateway to the final chapter",
   "",
   "**Chapter III: Revelation**",
   "- Multiple interactive 3D objects",
   "- Color-changing elements on click",
   "- Journey completion message",
   "",
   "## Customization",
   "",
   "### Change Colors",
   "Edit the `color` attributes in index.html:",
   "```html",
   "<a-box color=\"#YOUR_HEX_COLOR\">",
   "```",
   "",
   "### Modify Text",
   "Update `a-text` elements:",
   "```html",
   "<a-text value=\"Your custom text here\">",
   "```",
   "",
   "### Add 3D Models",
   "Replace placeholder shapes with GLB/GLTF models:",
   "```html",
   "<a-entity gltf-model=\"url(models/your-model.glb)\">",
   "```",
   "",
   "## Browser Compatibility",
   "",
   "- Chrome/Safari on iOS (best performance)",
   "- Chrome on Android",
   "- Requires HTTPS for camera access",
   "",
   "## Educational Value",
   "",
   "This project demonstrates:",
   "- Event-driven programming",
   "- State management",
   "- 3D graphics and animations",
   "- User interaction patterns",
   "- Progressive web app concepts",
   "",
   "## License",
   "",
   "Educational project - free to use and modify",
   "",
   "## Credits",
   "",
   "- AR.js library",
   "- A-Frame framework",
   "- NFT Marker Creator tool",
   ""]

/-- `ARProjectSetup.create_readme`. -/
def create_readme (s : ARProjectSetup) (st : RunState) : RunState :=
  let st := writeStep st (s.project_root ++ ["README.md"]) readme_content
  emit st "README.md created!\n"

/-- The body of the `.gitignore` written by `create_gitignore`, verbatim from
the triple-quoted string in the script. -/
def gitignore_content : String := String.intercalate "\n"
  ["# Dependencies",
   "node_modules/",
   "npm-debug.log",
   "yarn-error.log",
   "",
   "# Environment",
   ".env",
   ".env.local",
   "",
   "# OS",
   ".DS_Store",
   "Thumbs.db",
   "",
   "# IDE",
   ".vscode/",
   ".idea/",
   "*.swp",
   "*.swo",
   "",
   "# Build",
   "dist/",
   "build/",
   "",
   "# Temporary files",
   "*.tmp",
   "*.log",
   ""]

/-- `ARProjectSetup.create_gitignore`. -/
def create_gitignore (s : ARProjectSetup) (st : RunState) : RunState :=
  let st := writeStep st (s.project_root ++ [".gitignore"]) gitignore_content
  emit st ".gitignore created!\n"

mutual

/-- A JSON value of the fragment used by the script: strings, arrays and
objects (the `render_config` dictionary contains nothing else). -/
inductive JValue where
  | str : String → JValue
  | arr : JArr → JValue
  | obj : JObj → JValue

/-- A JSON array of the fragment. -/
inductive JArr where
  | nil : JArr
  | cons : JValue → JArr → JArr

/-- A JSON object of the fragment: an ordered list of key/value fields. -/
inductive JObj where
  | nil : JObj
  | cons : String → JValue → JObj → JObj

end

/-- Number of elements of a JSON array. -/
def JArr.length : JArr → Nat
  | JArr.nil => 0
  | JArr.cons _ t => 1 + JArr.length t

/-- First value bound to a key in a JSON object, if any. -/
def JObj.lookup : JObj → String → Option JValue
  | JObj.nil, _ => none
  | JObj.cons k v t, key => if k = key then some v else JObj.lookup t key

/-- A run of `n` spaces, as produced by `json.dump` indentation. -/
def spacesStr (n : Nat) : String := String.mk (List.replicate n ' ')

mutual

/-- Serialization of a JSON value as `json.dump(v, f, indent=2)` renders it
at the given current indentation: all strings in `render_config` are ASCII
without escapes, keys are rendered as `"key": value`, container items are
separated by `",\n"`, and closing brackets sit at the parent indentation. -/
def dumpVal : Nat → JValue → String
  | _, JValue.str s => "\"" ++ s ++ "\""
  | _, JValue.arr JArr.nil => "[]"
  | ind, JValue.arr (JArr.cons v t) =>
      "[\n" ++ dumpArr (ind + 2) (JArr.cons v t) ++ "\n" ++ spacesStr ind ++ "]"
  | _, JValue.obj JObj.nil => "\x7b\x7d"
  | ind, JValue.obj (JObj.cons k v t) =>
      "\x7b\n" ++ dumpObj (ind + 2) (JObj.cons k v t) ++ "\n" ++ spacesStr ind ++ "\x7d"

/-- Serialization of the items of a nonempty JSON array, one per line. -/
def dumpArr : Nat → JArr → String
  | _, JArr.nil => ""
  | ind, JArr.cons v JArr.nil => spacesStr ind ++ dumpVal ind v
  | ind, JArr.cons v (JArr.cons w t) =>
      spacesStr ind ++ dumpVal ind v ++ ",\n" ++ dumpArr ind (JArr.cons w t)

/-- Serialization of the fields of a nonempty JSON object, one per line. -/
def dumpObj : Nat → JObj → String
  | _, JObj.nil => ""
  | ind, JObj.cons k v JObj.nil =>
      spacesStr ind ++ "\"" ++ k ++ "\": " ++ dumpVal ind v
  | ind, JObj.cons k v (JObj.cons k2 v2 t) =>
      spacesStr ind ++ "\"" ++ k ++ "\": " ++ dumpVal ind v ++ ",\n" ++
        dumpObj ind (JObj.cons k2 v2 t)

end

/-- Whitespace as accepted between JSON tokens. -/
def isJsonWs (c : Char) : Bool := c = ' ' || c = '\n' || c = '\t' || c = '\r'

/-- Drop leading JSON whitespace. -/
def skipWs : List Char → List Char
  | [] => []
  | c :: t => if isJsonWs c then skipWs t else c :: t

/-- Scan the body of a JSON string literal (no escape sequences, as none
occur in `render.yaml`) up to the closing quote; returns the body and the
rest of the input. -/
def takeStrAux : List Char → Option (List Char × List Char)
  | [] => none
  | c :: t =>
    if c = '"' then some ([], t)
    else
      match takeStrAux t with
      | some (s, r) => some (c :: s, r)
      | none => none

mutual

/-- Recursive-descent parser for the JSON fragment (strings, arrays,
objects); the `Nat` argument is fuel bounding the recursion depth. -/
def parseVal : Nat → List Char → Option (JValue × List Char)
  | 0, _ => none
  | Nat.succ fuel, cs =>
    match skipWs cs with
    | '"' :: t =>
      (match takeStrAux t with
       | some (s, r) => some (JValue.str (String.mk s), r)
       | none => none)
    | '[' :: t =>
      (match skipWs t with
       | ']' :: r => some (JValue.arr JArr.nil, r)
       | _ =>
         match parseArrItems fuel t with
         | some (a, r) => some (JValue.arr a, r)
         | none => none)
    | '\x7b' :: t =>
      (match skipWs t with
       | '\x7d' :: r => some (JValue.obj JObj.nil, r)
       | _ =>
         match parseObjItems fuel t with
         | some (o, r) => some (JValue.obj o, r)
         | none => none)
    | _ => none

/-- Parse the comma-separated items of a nonempty array up to `]`. -/
def parseArrItems : Nat → List Char → Option (JArr × List Char)
  | 0, _ => none
  | Nat.succ fuel, cs =>
    match parseVal fuel cs with
    | none => none
    | some (v, r) =>
      match skipWs r with
      | ',' :: r2 =>
        (match parseArrItems fuel r2 with
         | some (a, r3) => some (JArr.cons v a, r3)
         | none => none)
      | ']' :: r2 => some (JArr.cons v JArr.nil, r2)
      | _ => none

/-- Parse the comma-separated fields of a nonempty object up to the closing
brace. -/
def parseObjItems : Nat → List Char → Option (JObj × List Char)
  | 0, _ => none
  | Nat.succ fuel, cs =>
    match skipWs cs with
    | '"' :: t =>
      (match takeStrAux t with
       | none => none
       | some (k, r) =>
         match skipWs r with
         | ':' :: r2 =>
           (match parseVal fuel r2 with
            | none => none
            | some (v, r3) =>
              match skipWs r3 with
              | ',' :: r4 =>
                (match parseObjItems fuel r4 with
                 | some (o, r5) => some (JObj.cons (String.mk k) v o, r5)
                 | none => none)
              | '\x7d' :: r4 => some (JObj.cons (String.mk k) v JObj.nil, r4)
              | _ => none)
         | _ => none)
    | _ => none

end

/-- Parse a complete JSON document of the fragment. -/
def parseJson (s : String) : Option JValue :=
  match parseVal (2 * s.length + 8) s.toList with
  | some (v, r) => if skipWs r = [] then some v else none
  | none => none

/-- The `render_config` dictionary built in `create_render_config`,
transcribed field by field. -/
def render_config : JValue :=
  JValue.obj (JObj.cons "services"
    (JValue.arr (JArr.cons
      (JValue.obj
        (JObj.cons "type" (JValue.str "web")
        (JObj.cons "name" (JValue.str "ar-narrative-experience")
        (JObj.cons "env" (JValue.str "static")
        (JObj.cons "buildCommand" (JValue.str "")
        (JObj.cons "staticPublishPath" (JValue.str ".")
        (JObj.cons "headers"
          (JValue.arr
            (JArr.cons (JValue.obj
              (JObj.cons "path" (JValue.str "/*")
              (JObj.cons "name" (JValue.str "X-Frame-Options")
              (JObj.cons "value" (JValue.str "SAMEORIGIN") JObj.nil))))
            (JArr.cons (JValue.obj
              (JObj.cons "path" (JValue.str "/*")
              (JObj.cons "name" (JValue.str "X-Content-Type-Options")
              (JObj.cons "value" (JValue.str "nosniff") JObj.nil))))
            JArr.nil)))
          JObj.nil)))))))
      JArr.nil))
    JObj.nil)

/-- The bytes `json.dump(render_config, f, indent=2)` writes to
`render.yaml`. -/
def render_yaml_content : String := dumpVal 0 render_config

/-- `ARProjectSetup.create_render_config`. -/
def create_render_config (s : ARProjectSetup) (st : RunState) : RunState :=
  let st := writeStep st (s.project_root ++ ["render.yaml"]) render_yaml_content
  emit st "render.yaml created!\n"

/-- `ARProjectSetup.check_git_setup`: tests `(self.project_root / ".git").exists()`
(true for any entry, directory or not), prints the corresponding message, and
returns the boolean; it performs no filesystem write. -/
def check_git_setup (s : ARProjectSetup) (st : RunState) : RunState × Bool :=
  match st.err with
  | some _ => (st, false)
  | none =>
    if (FS.get st.fs (s.project_root ++ [".git"])).isSome = false then
      (emit st "Git not initialized. Run: git init", false)
    else
      (emit st "Git repository detected\n", true)

/-- The fixed guidance text printed by `display_next_steps`, verbatim from
the triple-quoted string in the script. -/
def next_steps_text : String := String.intercalate "\n"
  ["",
   "╔" ++ String.mk (List.replicate 62 '═') ++ "╗",
   "║" ++ String.mk (List.replicate 21 ' ') ++ "NEXT STEPS" ++
     String.mk (List.replicate 31 ' ') ++ "║",
   "╚" ++ String.mk (List.replicate 62 '═') ++ "╝",
   "",
   "1. 📸 Create Your NFT Markers:",
   "   → Visit: https://carnaux.github.io/NFT-Marker-Creator/#/",
   "   → Upload 3 distinctive images",
   "   → Download and place files in markers/ folder",
   "",
   "2. 🎨 Customize Your Experience:",
   "   → Edit index.html to change text and colors",
   "   → Add your own 3D models to models/ folder",
   "   → Modify the narrative to tell your story",
   "",
   "3. 📤 Push to GitHub:",
   "   git add .",
   "   git commit -m \"Initial AR project setup\"",
   "   git push origin main",
   "",
   "4. 🚀 Deploy on Render.com:",
   "   → Go to https://render.com/",
   "   → Create new Static Site",
   "   → Connect your GitHub repository",
   "   → Deploy!",
   "",
   "5. 📱 Test Your AR:",
   "   → Open deployed URL on mobile",
   "   → Allow camera permissions",
   "   → Point at markers to experience the story",
   "",
   "💡 Tips:",
   "   - Use high-contrast images for markers",
   "   - Test on mobile for best experience",
   "   - Markers should be at least 10cm in size when printed",
   "   - Good lighting improves tracking",
   "",
   "🎯 Your project aims for Grade 10 with:",
   "   ✓ Sequential narrative",
   "   ✓ Interactive elements",
   "   ✓ Multiple scenarios",
   "   ✓ Artistic storytelling",
   "",
   "Good luck with your AR project! 🌟",
   ""]

/-- `ARProjectSetup.display_next_steps`. -/
def display_next_steps (st : RunState) : RunState :=
  emit st next_steps_text

/-- Sixty `=` characters, `"=" * 60`. -/
def eqLine : String := String.mk (List.replicate 60 '=')

/-- `ARProjectSetup.run_setup`: the complete fixed sequence. -/
def run_setup (s : ARProjectSetup) (st : RunState) : RunState :=
  let st := emit st ("\n" ++ eqLine)
  let st := emit st "🚀 AR NARRATIVE PROJECT SETUP"
  let st := emit st (eqLine ++ "\n")
  let st := create_directory_structure s st
  let st := create_readme s st
  let st := create_gitignore s st
  let st := create_render_config s st
  let st := (check_git_setup s st).1
  display_next_steps st

/-- One process invocation (`main`): `ARProjectSetup()` resolves the project
root, then `run_setup` executes on the given pre-run filesystem, starting
with empty output and no error. -/
def runOnce (s : ARProjectSetup) (fs : FS) : RunState :=
  run_setup s { fs := fs, output := [], err := none }

/-- The eight final path components the run ever writes to (the five
directories and the three files), all direct children of the project root. -/
def writtenNames : List String :=
  ["markers", "models", "assets", "css", "js", "README.md", ".gitignore", "render.yaml"]

/-! ### Basic lemmas about the filesystem map -/

theorem FS.get_set_self (fs : FS) (p : FPath) (e : Entry) :
    FS.get (FS.set fs p e) p = some e := by
  induction fs with
  | nil => simp [FS.set, FS.get]
  | cons hd t ih =>
    obtain ⟨q, d⟩ := hd
    by_cases h : q = p
    · subst h; simp [FS.set, FS.get]
    · simp [FS.set, FS.get, h, ih]

theorem FS.get_set_ne (fs : FS) (p q : FPath) (e : Entry) (h : q ≠ p) :
    FS.get (FS.set fs p e) q = FS.get fs q := by
  induction fs with
  | nil =>
    simp only [FS.set, FS.get]
    rw [if_neg (Ne.symm h)]
  | cons hd t ih =>
    obtain ⟨q2, d⟩ := hd
    by_cases h2 : q2 = p
    · subst h2
      simp only [FS.set, if_pos rfl, FS.get]
      rw [if_neg (Ne.symm h), if_neg (Ne.symm h)]
    · simp only [FS.set, if_neg h2, FS.get]
      by_cases h3 : q2 = q
      · rw [if_pos h3, if_pos h3]
      · rw [if_neg h3, if_neg h3]
        exact ih

theorem FS.set_eq_self (fs : FS) (p : FPath) (e : Entry) (h : FS.get fs p = some e) :
    FS.set fs p e = fs := by
  induction fs with
  | nil => simp [FS.get] at h
  | cons hd t ih =>
    obtain ⟨q, d⟩ := hd
    by_cases h2 : q = p
    · subst h2
      simp [FS.get] at h
      subst h
      simp [FS.set]
    · simp only [FS.get, if_neg h2] at h
      simp [FS.set, h2, ih h]

/-- Two direct children of the same root with different names are different
paths. -/
theorem child_ne_child {r : FPath} {a b : String} (h : a ≠ b) :
    r ++ [a] ≠ r ++ [b] := by
  intro hh
  exact h (by simpa using hh)

/-! ### Lemmas about the primitive filesystem operations -/

theorem mkdir_ok_get_self {fs fs2 : FS} {p : FPath}
    (h : mkdir_exist_ok fs p = Except.ok fs2) :
    FS.get fs2 p = some Entry.dir := by
  unfold mkdir_exist_ok at h
  split at h
  · cases h
    assumption
  · cases h
  · split at h
    · cases h
      exact FS.get_set_self ..
    · cases h

theorem mkdir_ok_get_ne {fs fs2 : FS} {p q : FPath}
    (h : mkdir_exist_ok fs p = Except.ok fs2) (hq : q ≠ p) :
    FS.get fs2 q = FS.get fs q := by
  unfold mkdir_exist_ok at h
  split at h
  · cases h
    rfl
  · cases h
  · split at h
    · cases h
      exact FS.get_set_ne _ _ _ _ hq
    · cases h

theorem mkdir_noop {fs : FS} {p : FPath} (h : FS.get fs p = some Entry.dir) :
    mkdir_exist_ok fs p = Except.ok fs := by
  unfold mkdir_exist_ok
  rw [h]

theorem write_ok_get_self {fs fs2 : FS} {p : FPath} {c : String}
    (h : write_text fs p c = Except.ok fs2) :
    FS.get fs2 p = some (Entry.file c) := by
  unfold write_text at h
  split at h
  · cases h
  · cases h
    exact FS.get_set_self ..
  · split at h
    · cases h
      exact FS.get_set_self ..
    · cases h

theorem write_ok_get_ne {fs fs2 : FS} {p q : FPath} {c : String}
    (h : write_text fs p c = Except.ok fs2) (hq : q ≠ p) :
    FS.get fs2 q = FS.get fs q := by
  unfold write_text at h
  split at h
  · cases h
  · cases h
    exact FS.get_set_ne _ _ _ _ hq
  · split at h
    · cases h
      exact FS.get_set_ne _ _ _ _ hq
    · cases h

theorem write_noop {fs : FS} {p : FPath} {c : String}
    (h : FS.get fs p = some (Entry.file c)) :
    write_text fs p c = Except.ok fs := by
  unfold write_text
  rw [h, FS.set_eq_self _ _ _ h]

/-! ### Lemmas about the run-state steps -/

theorem emit_fs (st : RunState) (m : String) : (emit st m).fs = st.fs := by
  obtain ⟨fs, out, err⟩ := st
  cases err <;> rfl

theorem emit_err (st : RunState) (m : String) : (emit st m).err = st.err := by
  obtain ⟨fs, out, err⟩ := st
  cases err <;> rfl

theorem emit_output_sup {st : RunState} {x : String} (m : String)
    (h : x ∈ st.output) : x ∈ (emit st m).output := by
  obtain ⟨fs, out, err⟩ := st
  cases err
  · simp only [emit]
    exact List.mem_append_left _ h
  · exact h

theorem emit_mem {st : RunState} (m : String) (h : st.err = none) :
    m ∈ (emit st m).output := by
  obtain ⟨fs, out, err⟩ := st
  cases h
  simp [emit]

theorem mkdirStep_get_ne {st : RunState} {p q : FPath} (hq : q ≠ p) :
    FS.get (mkdirStep st p).fs q = FS.get st.fs q := by
  obtain ⟨fs, out, err⟩ := st
  cases err
  · simp only [mkdirStep]
    cases hm : mkdir_exist_ok fs p
    · rfl
    · exact mkdir_ok_get_ne hm hq
  · rfl

theorem mkdirStep_err_none {st : RunState} {p : FPath}
    (h : (mkdirStep st p).err = none) : st.err = none := by
  obtain ⟨fs, out, err⟩ := st
  cases err
  · rfl
  · exact h

theorem mkdirStep_get_self {st : RunState} {p : FPath}
    (h : (mkdirStep st p).err = none) :
    FS.get (mkdirStep st p).fs p = some Entry.dir := by
  obtain ⟨fs, out, err⟩ := st
  cases err
  · simp only [mkdirStep] at h ⊢
    cases hm : mkdir_exist_ok fs p
    · rw [hm] at h
      cases h
    · exact mkdir_ok_get_self hm
  · cases h

theorem mkdirStep_noop {st : RunState} {p : FPath} (he : st.err = none)
    (h : FS.get st.fs p = some Entry.dir) :
    (mkdirStep st p).fs = st.fs ∧ (mkdirStep st p).err = none := by
  obtain ⟨fs, out, err⟩ := st
  cases he
  simp [mkdirStep, mkdir_noop h]

theorem mkdirStep_output_sup {st : RunState} {x : String} (p : FPath)
    (h : x ∈ st.output) : x ∈ (mkdirStep st p).output := by
  obtain ⟨fs, out, err⟩ := st
  cases err
  · simp only [mkdirStep]
    cases hm : mkdir_exist_ok fs p
    · exact h
    · exact List.mem_append_left _ h
  · exact h

theorem writeStep_get_ne {st : RunState} {p q : FPath} {c : String} (hq : q ≠ p) :
    FS.get (writeStep st p c).fs q = FS.get st.fs q := by
  obtain ⟨fs, out, err⟩ := st
  cases err
  · simp only [writeStep]
    cases hm : write_text fs p c
    · rfl
    · exact write_ok_get_ne hm hq
  · rfl

theorem writeStep_err_none {st : RunState} {p : FPath} {c : String}
    (h : (writeStep st p c).err = none) : st.err = none := by
  obtain ⟨fs, out, err⟩ := st
  cases err
  · rfl
  · exact h

theorem writeStep_get_self {st : RunState} {p : FPath} {c : String}
    (h : (writeStep st p c).err = none) :
    FS.get (writeStep st p c).fs p = some (Entry.file c) := by
  obtain ⟨fs, out, err⟩ := st
  cases err
  · simp only [writeStep] at h ⊢
    cases hm : write_text fs p c
    · rw [hm] at h
      cases h
    · exact write_ok_get_self hm
  · cases h

theorem writeStep_noop {st : RunState} {p : FPath} {c : String} (he : st.err = none)
    (h : FS.get st.fs p = some (Entry.file c)) :
    (writeStep st p c).fs = st.fs ∧ (writeStep st p c).err = none := by
  obtain ⟨fs, out, err⟩ := st
  cases he
  simp [writeStep, write_noop h]

theorem writeStep_output_sup {st : RunState} {x : String} (p : FPath) (c : String)
    (h : x ∈ st.output) : x ∈ (writeStep st p c).output := by
  obtain ⟨fs, out, err⟩ := st
  cases err
  · simp only [writeStep]
    cases hm : write_text fs p c
    · exact h
    · exact h
  · exact h

theorem check_git_fs (s : ARProjectSetup) (st : RunState) :
    ((check_git_setup s st).1).fs = st.fs := by
  obtain ⟨fs, out, err⟩ := st
  cases err
  · simp only [check_git_setup]
    split
    · exact emit_fs ..
    · exact emit_fs ..
  · rfl

theorem check_git_err (s : ARProjectSetup) (st : RunState) :
    ((check_git_setup s st).1).err = st.err := by
  obtain ⟨fs, out, err⟩ := st
  cases err
  · simp only [check_git_setup]
    split
    · exact emit_err ..
    · exact emit_err ..
  · rfl

theorem check_git_output_sup {st : RunState} {x : String} (s : ARProjectSetup)
    (h : x ∈ st.output) : x ∈ ((check_git_setup s st).1).output := by
  obtain ⟨fs, out, err⟩ := st
  cases err
  · simp only [check_git_setup]
    split
    · exact emit_output_sup _ h
    · exact emit_output_sup _ h
  · exact h

theorem check_git_msg (s : ARProjectSetup) (st : RunState) (he : st.err = none) :
    ((FS.get st.fs (s.project_root ++ [".git"])).isSome = true →
      "Git repository detected\n" ∈ ((check_git_setup s st).1).output) ∧
    ((FS.get st.fs (s.project_root ++ [".git"])).isSome = false →
      "Git not initialized. Run: git init" ∈ ((check_git_setup s st).1).output) := by
  obtain ⟨fs, out, err⟩ := st
  cases he
  simp only [check_git_setup]
  constructor
  · intro hg
    rw [hg]
    simp only [Bool.true_eq_false, if_false]
    exact emit_mem _ rfl
  · intro hg
    rw [hg]
    simp only [if_true]
    exact emit_mem _ rfl

/-! ### Decomposition of `run_setup` into its phases -/

/-- The three banner prints at the top of `run_setup`. -/
def stPre (st : RunState) : RunState :=
  emit (emit (emit st ("\n" ++ eqLine)) "🚀 AR NARRATIVE PROJECT SETUP") (eqLine ++ "\n")

/-- The directory-creation phase: the header print and the five `mkdir`
loop iterations of `create_directory_structure`. -/
def dirsPhase (s : ARProjectSetup) (st : RunState) : RunState :=
  mkdirStep (mkdirStep (mkdirStep (mkdirStep (mkdirStep
    (emit st "📁 Creating directory structure...")
    (s.project_root ++ ["markers"]))
    (s.project_root ++ ["models"]))
    (s.project_root ++ ["assets"]))
    (s.project_root ++ ["css"]))
    (s.project_root ++ ["js"])

/-- The remainder of the run after the directory loop: the closing print of
`create_directory_structure`, the three file writes with their prints, and
`check_git_setup`. -/
def filesPhase (s : ARProjectSetup) (st : RunState) : RunState :=
  (check_git_setup s
    (emit (writeStep
      (emit (writeStep
        (emit (writeStep
          (emit st "✅ Directory structure created!\n")
          (s.project_root ++ ["README.md"]) readme_content)
          "README.md created!\n")
        (s.project_root ++ [".gitignore"]) gitignore_content)
        ".gitignore created!\n")
      (s.project_root ++ ["render.yaml"]) render_yaml_content)
      "render.yaml created!\n")).1

theorem run_setup_eq (s : ARProjectSetup) (st : RunState) :
    run_setup s st = emit (filesPhase s (dirsPhase s (stPre st))) next_steps_text := rfl

/-- The five directory names of the scaffold. -/
def scaffoldNames : List String := ["markers", "models", "assets", "css", "js"]

theorem dirsPhase_err {s : ARProjectSetup} {st : RunState}
    (h : (dirsPhase s st).err = none) : st.err = none := by
  unfold dirsPhase at h
  have h := mkdirStep_err_none h
  have h := mkdirStep_err_none h
  have h := mkdirStep_err_none h
  have h := mkdirStep_err_none h
  have h := mkdirStep_err_none h
  rw [emit_err] at h
  exact h

theorem dirsPhase_get_ne {s : ARProjectSetup} {st : RunState} {q : FPath}
    (hq : ∀ n, n ∈ scaffoldNames → q ≠ s.project_root ++ [n]) :
    FS.get (dirsPhase s st).fs q = FS.get st.fs q := by
  unfold dirsPhase
  rw [mkdirStep_get_ne (hq "js" (by simp [scaffoldNames])),
      mkdirStep_get_ne (hq "css" (by simp [scaffoldNames])),
      mkdirStep_get_ne (hq "assets" (by simp [scaffoldNames])),
      mkdirStep_get_ne (hq "models" (by simp [scaffoldNames])),
      mkdirStep_get_ne (hq "markers" (by simp [scaffoldNames])),
      emit_fs]

theorem dirsPhase_get_self {s : ARProjectSetup} {st : RunState}
    (h : (dirsPhase s st).err = none) :
    ∀ n, n ∈ scaffoldNames →
      FS.get (dirsPhase s st).fs (s.project_root ++ [n]) = some Entry.dir := by
  unfold dirsPhase at h ⊢
  have h4 := mkdirStep_err_none h
  have h3 := mkdirStep_err_none h4
  have h2 := mkdirStep_err_none h3
  have h1 := mkdirStep_err_none h2
  intro n hn
  have hn2 : n = "markers" ∨ n = "models" ∨ n = "assets" ∨ n = "css" ∨ n = "js" := by
    simpa [scaffoldNames] using hn
  obtain rfl | rfl | rfl | rfl | rfl := hn2
  · rw [mkdirStep_get_ne (child_ne_child (by decide)),
        mkdirStep_get_ne (child_ne_child (by decide)),
        mkdirStep_get_ne (child_ne_child (by decide)),
        mkdirStep_get_ne (child_ne_child (by decide))]
    exact mkdirStep_get_self h1
  · rw [mkdirStep_get_ne (child_ne_child (by decide)),
        mkdirStep_get_ne (child_ne_child (by decide)),
        mkdirStep_get_ne (child_ne_child (by decide))]
    exact mkdirStep_get_self h2
  · rw [mkdirStep_get_ne (child_ne_child (by decide)),
        mkdirStep_get_ne (child_ne_child (by decide))]
    exact mkdirStep_get_self h3
  · rw [mkdirStep_get_ne (child_ne_child (by decide))]
    exact mkdirStep_get_self h4
  · exact mkdirStep_get_self h

theorem dirsPhase_noop {s : ARProjectSetup} {st : RunState} (he : st.err = none)
    (hd : ∀ n, n ∈ scaffoldNames →
      FS.get st.fs (s.project_root ++ [n]) = some Entry.dir) :
    (dirsPhase s st).fs = st.fs ∧ (dirsPhase s st).err = none := by
  unfold dirsPhase
  have e0 : (emit st "📁 Creating directory structure...").fs = st.fs := emit_fs ..
  have e0e : (emit st "📁 Creating directory structure...").err = none := by
    rw [emit_err]; exact he
  have k1 := mkdirStep_noop e0e (by rw [e0]; exact hd "markers" (by simp [scaffoldNames]))
  have k2 := mkdirStep_noop k1.2
    (by rw [k1.1, e0]; exact hd "models" (by simp [scaffoldNames]))
  have k3 := mkdirStep_noop k2.2
    (by rw [k2.1, k1.1, e0]; exact hd "assets" (by simp [scaffoldNames]))
  have k4 := mkdirStep_noop k3.2
    (by rw [k3.1, k2.1, k1.1, e0]; exact hd "css" (by simp [scaffoldNames]))
  have k5 := mkdirStep_noop k4.2
    (by rw [k4.1, k3.1, k2.1, k1.1, e0]; exact hd "js" (by simp [scaffoldNames]))
  exact ⟨by rw [k5.1, k4.1, k3.1, k2.1, k1.1, e0], k5.2⟩

theorem dirsPhase_output_sup {s : ARProjectSetup} {st : RunState} {x : String}
    (h : x ∈ st.output) : x ∈ (dirsPhase s st).output := by
  unfold dirsPhase
  exact mkdirStep_output_sup _ (mkdirStep_output_sup _ (mkdirStep_output_sup _
    (mkdirStep_output_sup _ (mkdirStep_output_sup _ (emit_output_sup _ h)))))

theorem stPre_fs (st : RunState) : (stPre st).fs = st.fs := by
  unfold stPre
  rw [emit_fs, emit_fs, emit_fs]

theorem stPre_err (st : RunState) : (stPre st).err = st.err := by
  unfold stPre
  rw [emit_err, emit_err, emit_err]

theorem filesPhase_err {s : ARProjectSetup} {st : RunState}
    (h : (filesPhase s st).err = none) : st.err = none := by
  unfold filesPhase at h
  rw [check_git_err, emit_err] at h
  have h := writeStep_err_none h
  rw [emit_err] at h
  have h := writeStep_err_none h
  rw [emit_err] at h
  have h := writeStep_err_none h
  rw [emit_err] at h
  exact h

theorem filesPhase_get_ne {s : ARProjectSetup} {st : RunState} {q : FPath}
    (h1 : q ≠ s.project_root ++ ["README.md"])
    (h2 : q ≠ s.project_root ++ [".gitignore"])
    (h3 : q ≠ s.project_root ++ ["render.yaml"]) :
    FS.get (filesPhase s st).fs q = FS.get st.fs q := by
  unfold filesPhase
  rw [check_git_fs, emit_fs, writeStep_get_ne h3, emit_fs, writeStep_get_ne h2,
      emit_fs, writeStep_get_ne h1, emit_fs]

theorem filesPhase_get_files {s : ARProjectSetup} {st : RunState}
    (h : (filesPhase s st).err = none) :
    FS.get (filesPhase s st).fs (s.project_root ++ ["README.md"]) =
      some (Entry.file readme_content) ∧
    FS.get (filesPhase s st).fs (s.project_root ++ [".gitignore"]) =
      some (Entry.file gitignore_content) ∧
    FS.get (filesPhase s st).fs (s.project_root ++ ["render.yaml"]) =
      some (Entry.file render_yaml_content) := by
  unfold filesPhase at h ⊢
  rw [check_git_err, emit_err] at h
  have hG := writeStep_err_none h
  rw [emit_err] at hG
  have hR := writeStep_err_none hG
  rw [emit_err] at hR
  refine ⟨?_, ?_, ?_⟩
  · rw [check_git_fs, emit_fs, writeStep_get_ne (child_ne_child (by decide)),
        emit_fs, writeStep_get_ne (child_ne_child (by decide)), emit_fs]
    exact writeStep_get_self hR
  · rw [check_git_fs, emit_fs, writeStep_get_ne (child_ne_child (by decide)),
        emit_fs]
    exact writeStep_get_self hG
  · rw [check_git_fs, emit_fs]
    exact writeStep_get_self h

theorem filesPhase_noop {s : ARProjectSetup} {st : RunState} (he : st.err = none)
    (h1 : FS.get st.fs (s.project_root ++ ["README.md"]) =
      some (Entry.file readme_content))
    (h2 : FS.get st.fs (s.project_root ++ [".gitignore"]) =
      some (Entry.file gitignore_content))
    (h3 : FS.get st.fs (s.project_root ++ ["render.yaml"]) =
      some (Entry.file render_yaml_content)) :
    (filesPhase s st).fs = st.fs ∧ (filesPhase s st).err = none := by
  unfold filesPhase
  set a0 := emit st "✅ Directory structure created!\n" with ha0
  set a1 := writeStep a0 (s.project_root ++ ["README.md"]) readme_content with ha1
  set a2 := emit a1 "README.md created!\n" with ha2
  set a3 := writeStep a2 (s.project_root ++ [".gitignore"]) gitignore_content with ha3
  set a4 := emit a3 ".gitignore created!\n" with ha4
  set a5 := writeStep a4 (s.project_root ++ ["render.yaml"]) render_yaml_content with ha5
  set a6 := emit a5 "render.yaml created!\n" with ha6
  have e0 : a0.err = none := by rw [ha0, emit_err]; exact he
  have f0 : a0.fs = st.fs := by rw [ha0, emit_fs]
  have w1 := writeStep_noop e0 (by rw [f0]; exact h1)
  have f1 : a1.fs = st.fs := by rw [ha1, w1.1, f0]
  have e1 : a1.err = none := by rw [ha1]; exact w1.2
  have f2 : a2.fs = st.fs := by rw [ha2, emit_fs, f1]
  have e2 : a2.err = none := by rw [ha2, emit_err]; exact e1
  have w2 := writeStep_noop e2 (by rw [f2]; exact h2)
  have f3 : a3.fs = st.fs := by rw [ha3, w2.1, f2]
  have e3 : a3.err = none := by rw [ha3]; exact w2.2
  have f4 : a4.fs = st.fs := by rw [ha4, emit_fs, f3]
  have e4 : a4.err = none := by rw [ha4, emit_err]; exact e3
  have w3 := writeStep_noop e4 (by rw [f4]; exact h3)
  have f5 : a5.fs = st.fs := by rw [ha5, w3.1, f4]
  have e5 : a5.err = none := by rw [ha5]; exact w3.2
  have f6 : a6.fs = st.fs := by rw [ha6, emit_fs, f5]
  have e6 : a6.err = none := by rw [ha6, emit_err]; exact e5
  constructor
  · rw [check_git_fs]
    exact f6
  · rw [check_git_err]
    exact e6

theorem filesPhase_output_sup {s : ARProjectSetup} {st : RunState} {x : String}
    (h : x ∈ st.output) : x ∈ (filesPhase s st).output := by
  unfold filesPhase
  exact check_git_output_sup _ (emit_output_sup _ (writeStep_output_sup _ _
    (emit_output_sup _ (writeStep_output_sup _ _ (emit_output_sup _
      (writeStep_output_sup _ _ (emit_output_sup _ h)))))))

theorem filesPhase_msg {s : ARProjectSetup} {st : RunState}
    (h : (filesPhase s st).err = none) :
    ((FS.get st.fs (s.project_root ++ [".git"])).isSome = true →
      "Git repository detected\n" ∈ (filesPhase s st).output) ∧
    ((FS.get st.fs (s.project_root ++ [".git"])).isSome = false →
      "Git not initialized. Run: git init" ∈ (filesPhase s st).output) := by
  unfold filesPhase at h ⊢
  rw [check_git_err] at h
  have hfs : FS.get (emit (writeStep
      (emit (writeStep
        (emit (writeStep
          (emit st "✅ Directory structure created!\n")
          (s.project_root ++ ["README.md"]) readme_content)
          "README.md created!\n")
        (s.project_root ++ [".gitignore"]) gitignore_content)
        ".gitignore created!\n")
      (s.project_root ++ ["render.yaml"]) render_yaml_content)
      "render.yaml created!\n").fs (s.project_root ++ [".git"]) =
      FS.get st.fs (s.project_root ++ [".git"]) := by
    rw [emit_fs, writeStep_get_ne (child_ne_child (by decide)), emit_fs,
        writeStep_get_ne (child_ne_child (by decide)), emit_fs,
        writeStep_get_ne (child_ne_child (by decide)), emit_fs]
  have hmsg := check_git_msg s _ h
  rw [hfs] at hmsg
  exact hmsg

/-! ### Lemmas about the whole run -/

theorem run_err_parts {s : ARProjectSetup} {st : RunState}
    (h : (run_setup s st).err = none) :
    (filesPhase s (dirsPhase s (stPre st))).err = none ∧
    (dirsPhase s (stPre st)).err = none ∧ st.err = none := by
  rw [run_setup_eq, emit_err] at h
  have hD := filesPhase_err h
  have hS := dirsPhase_err hD
  rw [stPre_err] at hS
  exact ⟨h, hD, hS⟩

theorem run_get_children {s : ARProjectSetup} {st : RunState}
    (h : (run_setup s st).err = none) :
    (∀ n, n ∈ scaffoldNames →
      FS.get (run_setup s st).fs (s.project_root ++ [n]) = some Entry.dir) ∧
    FS.get (run_setup s st).fs (s.project_root ++ ["README.md"]) =
      some (Entry.file readme_content) ∧
    FS.get (run_setup s st).fs (s.project_root ++ [".gitignore"]) =
      some (Entry.file gitignore_content) ∧
    FS.get (run_setup s st).fs (s.project_root ++ ["render.yaml"]) =
      some (Entry.file render_yaml_content) := by
  obtain ⟨hF, hD, hE⟩ := run_err_parts h
  have hfiles := filesPhase_get_files hF
  rw [run_setup_eq, emit_fs]
  refine ⟨?_, hfiles.1, hfiles.2.1, hfiles.2.2⟩
  intro n hn
  have hdir := dirsPhase_get_self hD n hn
  have hn2 : n = "markers" ∨ n = "models" ∨ n = "assets" ∨ n = "css" ∨ n = "js" := by
    simpa [scaffoldNames] using hn
  obtain rfl | rfl | rfl | rfl | rfl := hn2 <;>
    rw [filesPhase_get_ne (child_ne_child (by decide)) (child_ne_child (by decide))
      (child_ne_child (by decide))] <;> exact hdir

theorem run_get_outside (s : ARProjectSetup) (st : RunState) (q : FPath)
    (hq : ∀ n, n ∈ writtenNames → q ≠ s.project_root ++ [n]) :
    FS.get (run_setup s st).fs q = FS.get st.fs q := by
  rw [run_setup_eq, emit_fs,
      filesPhase_get_ne (hq "README.md" (by simp [writtenNames]))
        (hq ".gitignore" (by simp [writtenNames]))
        (hq "render.yaml" (by simp [writtenNames])),
      dirsPhase_get_ne (fun n hn => hq n (by
        have hn2 : n = "markers" ∨ n = "models" ∨ n = "assets" ∨ n = "css" ∨
            n = "js" := by simpa [scaffoldNames] using hn
        obtain rfl | rfl | rfl | rfl | rfl := hn2 <;> simp [writtenNames])),
      stPre_fs]

theorem run_output {s : ARProjectSetup} {st : RunState}
    (h : (run_setup s st).err = none) :
    next_steps_text ∈ (run_setup s st).output ∧
    ((FS.get st.fs (s.project_root ++ [".git"])).isSome = true →
      "Git repository detected\n" ∈ (run_setup s st).output) ∧
    ((FS.get st.fs (s.project_root ++ [".git"])).isSome = false →
      "Git not initialized. Run: git init" ∈ (run_setup s st).output) := by
  obtain ⟨hF, hD, hE⟩ := run_err_parts h
  have hmsg := filesPhase_msg hF
  have hgit : FS.get (dirsPhase s (stPre st)).fs (s.project_root ++ [".git"]) =
      FS.get st.fs (s.project_root ++ [".git"]) := by
    rw [dirsPhase_get_ne (fun n hn => ?_), stPre_fs]
    have hn2 : n = "markers" ∨ n = "models" ∨ n = "assets" ∨ n = "css" ∨
        n = "js" := by simpa [scaffoldNames] using hn
    obtain rfl | rfl | rfl | rfl | rfl := hn2 <;> exact child_ne_child (by decide)
  rw [hgit] at hmsg
  rw [run_setup_eq]
  refine ⟨emit_mem _ hF, fun hg => ?_, fun hg => ?_⟩
  · exact emit_output_sup _ (hmsg.1 hg)
  · exact emit_output_sup _ (hmsg.2 hg)

/-- Whether an optional entry is an existing non-directory file. -/
def isFileEntry : Option Entry → Bool
  | some (Entry.file _) => true
  | _ => false

theorem not_file_cases {o : Option Entry} (h : isFileEntry o = false) :
    o = some Entry.dir ∨ o = none := by
  match o with
  | none => exact Or.inr rfl
  | some Entry.dir => exact Or.inl rfl
  | some (Entry.file c) => simp [isFileEntry] at h

theorem child_dropLast (r : FPath) (a : String) : (r ++ [a]).dropLast = r := by
  simp

theorem root_ne_child {r : FPath} {a : String} : r ≠ r ++ [a] := by
  intro h
  have := congrArg List.length h
  simp at this

theorem mkdirStep_total {st : RunState} {p : FPath} (he : st.err = none)
    (hc : FS.get st.fs p = some Entry.dir ∨
      (FS.get st.fs p = none ∧ FS.get st.fs p.dropLast = some Entry.dir)) :
    (mkdirStep st p).err = none := by
  obtain ⟨fs, out, err⟩ := st
  cases he
  rcases hc with h | ⟨h1, h2⟩
  · simp [mkdirStep, mkdir_noop h]
  · simp [mkdirStep, mkdir_exist_ok, h1, h2]

theorem mkdir_cond {fs : FS} {r : FPath} {n : String}
    (hroot : FS.get fs r = some Entry.dir)
    (hnf : isFileEntry (FS.get fs (r ++ [n])) = false) :
    FS.get fs (r ++ [n]) = some Entry.dir ∨
    (FS.get fs (r ++ [n]) = none ∧
      FS.get fs (r ++ [n]).dropLast = some Entry.dir) := by
  rcases not_file_cases hnf with h | h
  · exact Or.inl h
  · exact Or.inr ⟨h, by rw [child_dropLast]; exact hroot⟩

theorem dirsPhase_total {s : ARProjectSetup} {st : RunState} (he : st.err = none)
    (hroot : FS.get st.fs s.project_root = some Entry.dir)
    (hnf : ∀ n, n ∈ scaffoldNames →
      isFileEntry (FS.get st.fs (s.project_root ++ [n])) = false) :
    (dirsPhase s st).err = none := by
  unfold dirsPhase
  set b0 := emit st "📁 Creating directory structure..." with hb0
  have e0 : b0.err = none := by rw [hb0, emit_err]; exact he
  have f0 : b0.fs = st.fs := by rw [hb0, emit_fs]
  set b1 := mkdirStep b0 (s.project_root ++ ["markers"]) with hb1
  have e1 : b1.err = none := by
    rw [hb1]
    refine mkdirStep_total e0 (mkdir_cond ?_ ?_)
    · rw [f0]; exact hroot
    · rw [f0]; exact hnf "markers" (by simp [scaffoldNames])
  have r1 : FS.get b1.fs s.project_root = some Entry.dir := by
    rw [hb1, mkdirStep_get_ne root_ne_child, f0]; exact hroot
  set b2 := mkdirStep b1 (s.project_root ++ ["models"]) with hb2
  have e2 : b2.err = none := by
    rw [hb2]
    refine mkdirStep_total e1 (mkdir_cond r1 ?_)
    rw [hb1, mkdirStep_get_ne (child_ne_child (by decide)), f0]
    exact hnf "models" (by simp [scaffoldNames])
  have r2 : FS.get b2.fs s.project_root = some Entry.dir := by
    rw [hb2, mkdirStep_get_ne root_ne_child]; exact r1
  set b3 := mkdirStep b2 (s.project_root ++ ["assets"]) with hb3
  have e3 : b3.err = none := by
    rw [hb3]
    refine mkdirStep_total e2 (mkdir_cond r2 ?_)
    rw [hb2, mkdirStep_get_ne (child_ne_child (by decide)),
        hb1, mkdirStep_get_ne (child_ne_child (by decide)), f0]
    exact hnf "assets" (by simp [scaffoldNames])
  have r3 : FS.get b3.fs s.project_root = some Entry.dir := by
    rw [hb3, mkdirStep_get_ne root_ne_child]; exact r2
  set b4 := mkdirStep b3 (s.project_root ++ ["css"]) with hb4
  have e4 : b4.err = none := by
    rw [hb4]
    refine mkdirStep_total e3 (mkdir_cond r3 ?_)
    rw [hb3, mkdirStep_get_ne (child_ne_child (by decide)),
        hb2, mkdirStep_get_ne (child_ne_child (by decide)),
        hb1, mkdirStep_get_ne (child_ne_child (by decide)), f0]
    exact hnf "css" (by simp [scaffoldNames])
  have r4 : FS.get b4.fs s.project_root = some Entry.dir := by
    rw [hb4, mkdirStep_get_ne root_ne_child]; exact r3
  refine mkdirStep_total e4 (mkdir_cond r4 ?_)
  rw [hb4, mkdirStep_get_ne (child_ne_child (by decide)),
      hb3, mkdirStep_get_ne (child_ne_child (by decide)),
      hb2, mkdirStep_get_ne (child_ne_child (by decide)),
      hb1, mkdirStep_get_ne (child_ne_child (by decide)), f0]
  exact hnf "js" (by simp [scaffoldNames])

theorem create_directory_structure_eq (s : ARProjectSetup) (st : RunState) :
    create_directory_structure s st =
      emit (dirsPhase s st) "✅ Directory structure created!\n" := rfl

/-- Split a character list into lines at newline characters. -/
def splitLinesAux : List Char → List Char → List String
  | [], acc => [String.mk acc.reverse]
  | c :: t, acc =>
    if c = '\n' then String.mk acc.reverse :: splitLinesAux t []
    else splitLinesAux t (c :: acc)

/-- The lines of a string (text separated at newline characters). -/
def splitLines (s : String) : List String := splitLinesAux s.toList []

theorem run_noop {s : ARProjectSetup} {st : RunState} (he : st.err = none)
    (hd : ∀ n, n ∈ scaffoldNames →
      FS.get st.fs (s.project_root ++ [n]) = some Entry.dir)
    (h1 : FS.get st.fs (s.project_root ++ ["README.md"]) =
      some (Entry.file readme_content))
    (h2 : FS.get st.fs (s.project_root ++ [".gitignore"]) =
      some (Entry.file gitignore_content))
    (h3 : FS.get st.fs (s.project_root ++ ["render.yaml"]) =
      some (Entry.file render_yaml_content)) :
    (run_setup s st).fs = st.fs ∧ (run_setup s st).err = none := by
  have hpe : (stPre st).err = none := by rw [stPre_err]; exact he
  have hpd := dirsPhase_noop hpe (by intro n hn; rw [stPre_fs]; exact hd n hn)
  have hfn := filesPhase_noop hpd.2
    (by rw [hpd.1, stPre_fs]; exact h1)
    (by rw [hpd.1, stPre_fs]; exact h2)
    (by rw [hpd.1, stPre_fs]; exact h3)
  rw [run_setup_eq, emit_fs, emit_err]
  exact ⟨by rw [hfn.1, hpd.1, stPre_fs], hfn.2⟩

/-- Look up a key in a JSON value, when it is an object. -/
def jGet : JValue → String → Option JValue
  | JValue.obj o, k => JObj.lookup o k
  | _, _ => none

/-- Element of a JSON array at an index. -/
def JArr.nth : JArr → Nat → Option JValue
  | JArr.nil, _ => none
  | JArr.cons v _, 0 => some v
  | JArr.cons _ t, Nat.succ i => JArr.nth t i

/-- Element at an index of a JSON value, when it is an array. -/
def jNth (v : JValue) (i : Nat) : Option JValue :=
  match v with
  | JValue.arr a => JArr.nth a i
  | _ => none

/-- Number of elements of a JSON value, when it is an array. -/
def jLen : JValue → Option Nat
  | JValue.arr a => some (JArr.length a)
  | _ => none

/-! ### Concrete inputs used by the witness and counterexample theorems -/

/-- A concrete project root. -/
def wRoot : FPath := ["home", "lab"]

/-- The configuration object at that root. -/
def wS : ARProjectSetup := ARProjectSetup.mk wRoot

/-- A pre-run filesystem holding only the project root directory. -/
def wFS : FS := [(wRoot, Entry.dir)]

/-- A pre-run filesystem where `markers` already exists as a directory and
holds an unrelated file. -/
def w6FS : FS :=
  [(wRoot, Entry.dir), (wRoot ++ ["markers"], Entry.dir),
   (wRoot ++ ["markers", "keep.txt"], Entry.file "precious data")]

/-- A pre-run filesystem where `.git` exists as a regular file. -/
def wgFS : FS :=
  [(wRoot, Entry.dir), (wRoot ++ [".git"], Entry.file "gitdir: elsewhere")]

/-- A pre-run filesystem where `markers` exists as a directory but `models`
is occupied by a regular file. -/
def cexFS : FS :=
  [(wRoot, Entry.dir), (wRoot ++ ["markers"], Entry.dir),
   (wRoot ++ ["models"], Entry.file "stray")]

/-! ### Claim theorems -/

/-- C1: after a successful run of the full setup sequence starting from any
filesystem state, all five directories (`markers`, `models`, `assets`, `css`,
`js`) and all three files (`README.md`, `.gitignore`, `render.yaml`) exist
under the project root. -/
theorem run_setup_completeness (s : ARProjectSetup) (fs : FS)
    (h : (runOnce s fs).err = none) :
    (∀ n, n ∈ scaffoldNames →
      FS.get (runOnce s fs).fs (s.project_root ++ [n]) = some Entry.dir) ∧
    (∃ c, FS.get (runOnce s fs).fs (s.project_root ++ ["README.md"]) =
      some (Entry.file c)) ∧
    (∃ c, FS.get (runOnce s fs).fs (s.project_root ++ [".gitignore"]) =
      some (Entry.file c)) ∧
    (∃ c, FS.get (runOnce s fs).fs (s.project_root ++ ["render.yaml"]) =
      some (Entry.file c)) := by
  unfold runOnce at h ⊢
  obtain ⟨hd, h1, h2, h3⟩ := run_get_children h
  exact ⟨hd, ⟨_, h1⟩, ⟨_, h2⟩, ⟨_, h3⟩⟩

/-- Witness for C1: the theorem applied to a concrete root-only filesystem. -/
theorem run_setup_completeness_witness :
    (runOnce wS wFS).err = none ∧
    ((∀ n, n ∈ scaffoldNames →
      FS.get (runOnce wS wFS).fs (wS.project_root ++ [n]) = some Entry.dir) ∧
    (∃ c, FS.get (runOnce wS wFS).fs (wS.project_root ++ ["README.md"]) =
      some (Entry.file c)) ∧
    (∃ c, FS.get (runOnce wS wFS).fs (wS.project_root ++ [".gitignore"]) =
      some (Entry.file c)) ∧
    (∃ c, FS.get (runOnce wS wFS).fs (wS.project_root ++ ["render.yaml"]) =
      some (Entry.file c))) :=
  ⟨by decide, run_setup_completeness wS wFS (by decide)⟩

/-- C2: when a run succeeds, running the setup again from the resulting
filesystem succeeds and leaves the filesystem identical: directories already
present are no-ops and the three files are overwritten with byte-identical
content, so the two-run final state equals the one-run final state. -/
theorem run_setup_idempotent (s : ARProjectSetup) (fs : FS)
    (h : (runOnce s fs).err = none) :
    (runOnce s (runOnce s fs).fs).fs = (runOnce s fs).fs ∧
    (runOnce s (runOnce s fs).fs).err = none := by
  unfold runOnce at h ⊢
  obtain ⟨hd, h1, h2, h3⟩ := run_get_children h
  exact run_noop rfl hd h1 h2 h3

/-- Witness for C2: the theorem applied to a concrete root-only filesystem. -/
theorem run_setup_idempotent_witness :
    (runOnce wS wFS).err = none ∧
    ((runOnce wS (runOnce wS wFS).fs).fs = (runOnce wS wFS).fs ∧
    (runOnce wS (runOnce wS wFS).fs).err = none) :=
  ⟨by decide, run_setup_idempotent wS wFS (by decide)⟩

/-- C3: the `render.yaml` content serialized by `create_render_config` (JSON,
a documented structured format and a subset of YAML) parses back to the
`render_config` mapping, which has exactly one service entry, whose
`staticPublishPath` is `"."`, and exactly two header entries, named
`X-Frame-Options` (value `SAMEORIGIN`) and `X-Content-Type-Options` (value
`nosniff`), each applied to path pattern `"/*"`. -/
theorem render_config_roundtrip :
    parseJson render_yaml_content = some render_config ∧
    Option.bind (jGet render_config "services") jLen = some 1 ∧
    Option.bind (Option.bind (jGet render_config "services") (fun v => jNth v 0))
      (fun v => jGet v "staticPublishPath") = some (JValue.str ".") ∧
    Option.bind (Option.bind (jGet render_config "services") (fun v => jNth v 0))
      (fun v => jGet v "headers") = some (JValue.arr (JArr.cons
        (JValue.obj (JObj.cons "path" (JValue.str "/*")
          (JObj.cons "name" (JValue.str "X-Frame-Options")
          (JObj.cons "value" (JValue.str "SAMEORIGIN") JObj.nil))))
        (JArr.cons
          (JValue.obj (JObj.cons "path" (JValue.str "/*")
            (JObj.cons "name" (JValue.str "X-Content-Type-Options")
            (JObj.cons "value" (JValue.str "nosniff") JObj.nil))))
          JArr.nil))) := by
  refine ⟨?_, rfl, rfl, rfl⟩
  set_option maxRecDepth 100000 in rfl

/-- C4: for a project root with a `.git` entry the run reports that a
repository was detected, without one it reports not initialized;
`check_git_setup` never changes the filesystem, and in both cases the
remaining steps still complete (the final guidance text is printed). -/
theorem run_setup_git_detection (s : ARProjectSetup) (fs : FS)
    (h : (runOnce s fs).err = none) :
    (∀ st : RunState, ((check_git_setup s st).1).fs = st.fs) ∧
    ((FS.get fs (s.project_root ++ [".git"])).isSome = true →
      "Git repository detected\n" ∈ (runOnce s fs).output) ∧
    ((FS.get fs (s.project_root ++ [".git"])).isSome = false →
      "Git not initialized. Run: git init" ∈ (runOnce s fs).output) ∧
    next_steps_text ∈ (runOnce s fs).output := by
  unfold runOnce at h ⊢
  obtain ⟨hn, hg1, hg2⟩ := run_output h
  exact ⟨fun st => check_git_fs s st, hg1, hg2, hn⟩

/-- Witness for C4: the theorem applied to a concrete root-only filesystem. -/
theorem run_setup_git_detection_witness :
    (runOnce wS wFS).err = none ∧
    ((∀ st : RunState, ((check_git_setup wS st).1).fs = st.fs) ∧
    ((FS.get wFS (wS.project_root ++ [".git"])).isSome = true →
      "Git repository detected\n" ∈ (runOnce wS wFS).output) ∧
    ((FS.get wFS (wS.project_root ++ [".git"])).isSome = false →
      "Git not initialized. Run: git init" ∈ (runOnce wS wFS).output) ∧
    next_steps_text ∈ (runOnce wS wFS).output) :=
  ⟨by decide, run_setup_git_detection wS wFS (by decide)⟩

/-- C5 as stated is false: in a state where one scaffold directory
(`markers`) already exists as a directory but another path (`models`) is
occupied by a regular file, `create_directory_structure` does not succeed —
`mkdir(exist_ok=True)` over the file raises `FileExistsError`. -/
theorem create_directory_structure_cex :
    FS.get cexFS (wS.project_root ++ ["markers"]) = some Entry.dir ∧
    (create_directory_structure wS ⟨cexFS, [], none⟩).err =
      some "FileExistsError" := by decide

/-- C5 amended: provided the project root is a directory and none of the
five scaffold paths is occupied by a non-directory file,
`create_directory_structure` succeeds; creating an already-existing
directory is a filesystem no-op (`mkdir_exist_ok` returns the filesystem
unchanged), all five directories exist afterwards, and only the five
scaffold paths are affected (absent ones being created). -/
theorem create_directory_structure_amended (s : ARProjectSetup) (st : RunState)
    (he : st.err = none)
    (hroot : FS.get st.fs s.project_root = some Entry.dir)
    (hnf : ∀ n, n ∈ scaffoldNames →
      isFileEntry (FS.get st.fs (s.project_root ++ [n])) = false) :
    (create_directory_structure s st).err = none ∧
    (∀ n, n ∈ scaffoldNames →
      FS.get (create_directory_structure s st).fs (s.project_root ++ [n]) =
        some Entry.dir) ∧
    (∀ p, FS.get st.fs p = some Entry.dir →
      mkdir_exist_ok st.fs p = Except.ok st.fs) ∧
    (∀ q, (∀ n, n ∈ scaffoldNames → q ≠ s.project_root ++ [n]) →
      FS.get (create_directory_structure s st).fs q = FS.get st.fs q) := by
  have hD := dirsPhase_total he hroot hnf
  rw [create_directory_structure_eq]
  refine ⟨by rw [emit_err]; exact hD, ?_, ?_, ?_⟩
  · intro n hn
    rw [emit_fs]
    exact dirsPhase_get_self hD n hn
  · intro p hp
    exact mkdir_noop hp
  · intro q hq
    rw [emit_fs]
    exact dirsPhase_get_ne hq

/-- Witness for the amended C5: a state where `markers` already exists as a
directory and the other four scaffold directories are absent. -/
theorem create_directory_structure_amended_witness :
    ((⟨w6FS, [], none⟩ : RunState).err = none ∧
     FS.get (⟨w6FS, [], none⟩ : RunState).fs wS.project_root = some Entry.dir ∧
     (∀ n, n ∈ scaffoldNames →
       isFileEntry (FS.get (⟨w6FS, [], none⟩ : RunState).fs
         (wS.project_root ++ [n])) = false)) ∧
    ((create_directory_structure wS ⟨w6FS, [], none⟩).err = none ∧
    (∀ n, n ∈ scaffoldNames →
      FS.get (create_directory_structure wS ⟨w6FS, [], none⟩).fs
        (wS.project_root ++ [n]) = some Entry.dir) ∧
    (∀ p, FS.get (⟨w6FS, [], none⟩ : RunState).fs p = some Entry.dir →
      mkdir_exist_ok (⟨w6FS, [], none⟩ : RunState).fs p =
        Except.ok (⟨w6FS, [], none⟩ : RunState).fs) ∧
    (∀ q, (∀ n, n ∈ scaffoldNames → q ≠ wS.project_root ++ [n]) →
      FS.get (create_directory_structure wS ⟨w6FS, [], none⟩).fs q =
        FS.get (⟨w6FS, [], none⟩ : RunState).fs q)) :=
  ⟨⟨by decide, by decide, by decide⟩,
   create_directory_structure_amended wS ⟨w6FS, [], none⟩ (by decide) (by decide)
     (by decide)⟩

/-- C6: a file that exists inside one of the five scaffold directories
before the run (hence is not one of the three written root-level files)
still exists with unchanged content after a successful run. -/
theorem run_setup_preserves_unrelated (s : ARProjectSetup) (fs : FS)
    (d : String) (rest : FPath) (c : String)
    (_hd : d ∈ scaffoldNames) (hrest : rest ≠ [])
    (hf : FS.get fs (s.project_root ++ d :: rest) = some (Entry.file c))
    (_h : (runOnce s fs).err = none) :
    FS.get (runOnce s fs).fs (s.project_root ++ d :: rest) =
      some (Entry.file c) := by
  unfold runOnce at _h ⊢
  rw [run_get_outside]
  · exact hf
  · intro n hn heq
    have h2 : d :: rest = [n] := by simpa using heq
    injection h2 with hh1 hh2
    exact hrest hh2

/-- Witness for C6: a run over a filesystem where `markers/keep.txt` exists
beforehand leaves it unchanged. -/
theorem run_setup_preserves_unrelated_witness :
    ("markers" ∈ scaffoldNames ∧ ["keep.txt"] ≠ ([] : FPath) ∧
     FS.get w6FS (wS.project_root ++ "markers" :: ["keep.txt"]) =
       some (Entry.file "precious data") ∧
     (runOnce wS w6FS).err = none) ∧
    FS.get (runOnce wS w6FS).fs (wS.project_root ++ "markers" :: ["keep.txt"]) =
      some (Entry.file "precious data") :=
  ⟨⟨by decide, by decide, by decide, by decide⟩,
   run_setup_preserves_unrelated wS w6FS "markers" ["keep.txt"] "precious data"
     (by decide) (by decide) (by decide) (by decide)⟩

/-- C7: every path whose entry the run changes is a direct child of the
project root named by one of the eight fixed names — never an absolute,
sibling, or parent path; the root is taken from the configuration object,
which is fixed for the whole run. -/
theorem run_setup_paths_under_root (s : ARProjectSetup) (st : RunState) (q : FPath)
    (h : FS.get (run_setup s st).fs q ≠ FS.get st.fs q) :
    ∃ n, n ∈ writtenNames ∧ q = s.project_root ++ [n] := by
  by_contra hc
  push_neg at hc
  exact h (run_get_outside s st q hc)

/-- Witness for C7: the `markers` entry changes in a concrete run, and is
indeed a direct child of the project root. -/
theorem run_setup_paths_under_root_witness :
    FS.get (run_setup wS ⟨wFS, [], none⟩).fs (wRoot ++ ["markers"]) ≠
      FS.get (⟨wFS, [], none⟩ : RunState).fs (wRoot ++ ["markers"]) ∧
    (∃ n, n ∈ writtenNames ∧ wRoot ++ ["markers"] = wS.project_root ++ [n]) :=
  ⟨by decide, run_setup_paths_under_root wS ⟨wFS, [], none⟩ (wRoot ++ ["markers"])
    (by decide)⟩

/-- C8: the written `.gitignore` contains, for each of the six pattern
categories of the file (dependencies: `node_modules/`; environment: `.env`;
OS artifacts: `.DS_Store`; IDE/editor: `.vscode/`; build output: `dist/`;
temporary/log files: `*.tmp`), at least one pattern line, the six lines
being pairwise distinct and non-empty. -/
theorem gitignore_category_lines :
    "node_modules/" ∈ splitLines gitignore_content ∧
    ".env" ∈ splitLines gitignore_content ∧
    ".DS_Store" ∈ splitLines gitignore_content ∧
    ".vscode/" ∈ splitLines gitignore_content ∧
    "dist/" ∈ splitLines gitignore_content ∧
    "*.tmp" ∈ splitLines gitignore_content ∧
    List.Pairwise (fun a b => a ≠ b)
      ["node_modules/", ".env", ".DS_Store", ".vscode/", "dist/", "*.tmp"] ∧
    (∀ x, x ∈ ["node_modules/", ".env", ".DS_Store", ".vscode/", "dist/", "*.tmp"] →
      x ≠ "") := by decide

/-- C9: `check_git_setup` reports a repository as detected whenever any
entry named `.git` exists under the project root, including when it is a
regular file rather than a directory. -/
theorem check_git_detects_file (s : ARProjectSetup) (st : RunState) (c : String)
    (he : st.err = none)
    (hg : FS.get st.fs (s.project_root ++ [".git"]) = some (Entry.file c)) :
    (check_git_setup s st).2 = true ∧
    "Git repository detected\n" ∈ ((check_git_setup s st).1).output := by
  obtain ⟨fs, out, err⟩ := st
  cases he
  simp only [check_git_setup] at hg ⊢
  rw [hg]
  simp only [Option.isSome_some, Bool.true_eq_false, if_false]
  exact ⟨by trivial, emit_mem _ rfl⟩

/-- Witness for C9: a `.git` regular file is detected. -/
theorem check_git_detects_file_witness :
    ((⟨wgFS, [], none⟩ : RunState).err = none ∧
     FS.get (⟨wgFS, [], none⟩ : RunState).fs (wS.project_root ++ [".git"]) =
       some (Entry.file "gitdir: elsewhere")) ∧
    ((check_git_setup wS ⟨wgFS, [], none⟩).2 = true ∧
     "Git repository detected\n" ∈
       ((check_git_setup wS ⟨wgFS, [], none⟩).1).output) :=
  ⟨⟨by decide, by decide⟩,
   check_git_detects_file wS ⟨wgFS, [], none⟩ "gitdir: elsewhere" (by decide)
     (by decide)⟩

/-- C10: the run is a pure function of the pre-run filesystem (the model has
no other inputs, mirroring the script, which reads no argument, environment
variable or network), so identical pre-run states give identical post-run
states; and after a successful run the three written files hold exactly the
fixed constant contents. -/
theorem run_setup_fixed_contents (s : ARProjectSetup) (fs1 fs2 : FS)
    (heq : fs1 = fs2) (h : (runOnce s fs1).err = none) :
    runOnce s fs1 = runOnce s fs2 ∧
    FS.get (runOnce s fs1).fs (s.project_root ++ ["README.md"]) =
      some (Entry.file readme_content) ∧
    FS.get (runOnce s fs1).fs (s.project_root ++ [".gitignore"]) =
      some (Entry.file gitignore_content) ∧
    FS.get (runOnce s fs1).fs (s.project_root ++ ["render.yaml"]) =
      some (Entry.file render_yaml_content) := by
  subst heq
  unfold runOnce at h ⊢
  obtain ⟨-, h1, h2, h3⟩ := run_get_children h
  exact ⟨rfl, h1, h2, h3⟩

/-- Witness for C10: the theorem applied to a concrete root-only
filesystem. -/
theorem run_setup_fixed_contents_witness :
    (wFS = wFS ∧ (runOnce wS wFS).err = none) ∧
    (runOnce wS wFS = runOnce wS wFS ∧
    FS.get (runOnce wS wFS).fs (wS.project_root ++ ["README.md"]) =
      some (Entry.file readme_content) ∧
    FS.get (runOnce wS wFS).fs (wS.project_root ++ [".gitignore"]) =
      some (Entry.file gitignore_content) ∧
    FS.get (runOnce wS wFS).fs (wS.project_root ++ ["render.yaml"]) =
      some (Entry.file render_yaml_content)) :=
  ⟨⟨rfl, by decide⟩, run_setup_fixed_contents wS wFS wFS rfl (by decide)⟩

end ARLab
